import Mathlib

/-!
A shallow embedding of `src/gelf-logger.js` (class `GELFLogger`): JavaScript
values, the GELF record builder, the one-shot HTTP send path, the WebSocket
open handler, failure/statistics tracking, and logger construction / child
derivation.  Theorems below settle the specification claims against these
definitions.
-/

/-- A JavaScript runtime value, as far as the logger inspects one:
`null`, `undefined`, booleans, numbers, strings, BigInts and plain objects
(ordered key/value lists).  BigInt is the one primitive `JSON.stringify`
refuses to serialize. -/
inductive GVal where
  | vNull
  | vUndefined
  | vBool (b : Bool)
  | vNum (n : Int)
  | vStr (s : String)
  | vBigInt (n : Int)
  | vObj (fields : List (String × GVal))

/-- A JavaScript object body: ordered field list. -/
abbrev Obj := List (String × GVal)

/-- JavaScript truthiness of a value. -/
def truthy : GVal → Bool
  | .vNull => false
  | .vUndefined => false
  | .vBool b => b
  | .vNum n => n != 0
  | .vStr s => s != ""
  | .vBigInt n => n != 0
  | .vObj _ => true

/-- JavaScript `String(v)` coercion. -/
def jsToString : GVal → String
  | .vNull => "null"
  | .vUndefined => "undefined"
  | .vBool b => if b then "true" else "false"
  | .vNum n => toString n
  | .vStr s => s
  | .vBigInt n => toString n
  | .vObj _ => "[object Object]"

/-- `v === null || v === undefined`. -/
def GVal.isNullish : GVal → Bool
  | .vNull => true
  | .vUndefined => true
  | _ => false

/-- Whether a value is a live object (the `typeof value === 'object'` branch
of the builder treats `vObj` this way; `null` is handled separately there). -/
def GVal.isObjVal : GVal → Bool
  | .vObj _ => true
  | _ => false

/-- Whether a value is a string. -/
def GVal.isStringVal : GVal → Bool
  | .vStr _ => true
  | _ => false

/-- JSON string quoting (escapes backslash and double quote). -/
def jsonQuote (s : String) : String :=
  "\"" ++ String.join (s.data.map (fun c =>
    if c = '\\' then "\\\\" else if c = '"' then "\\\"" else String.singleton c)) ++ "\""

mutual
/-- `JSON.stringify(v)`: `none` models a `TypeError` being thrown
(BigInt values cannot be serialized).  `undefined` never reaches a
top-level call on the logger's paths. -/
def jsonStringify : GVal → Option String
  | .vNull => some "null"
  | .vUndefined => none
  | .vBool b => some (if b then "true" else "false")
  | .vNum n => some (toString n)
  | .vStr s => some (jsonQuote s)
  | .vBigInt _ => none
  | .vObj fs =>
    match jsonFields fs with
    | some parts => some ("\x7b" ++ String.intercalate "," parts ++ "\x7d")
    | none => none

/-- Serializes an object's fields; properties whose value is `undefined`
are omitted, as `JSON.stringify` does. -/
def jsonFields : List (String × GVal) → Option (List String)
  | [] => some []
  | (k, v) :: rest =>
    match v with
    | .vUndefined => jsonFields rest
    | v =>
      match jsonStringify v with
      | some s => (jsonFields rest).map (fun r => (jsonQuote k ++ ":" ++ s) :: r)
      | none => none
end

/-- `Object.entries(v)`: throws a `TypeError` on `null`/`undefined`,
returns the own fields of an object, and the empty list on other
primitives. -/
def entriesOf : GVal → Except String Obj
  | .vNull => .error "TypeError: Cannot convert undefined or null to object"
  | .vUndefined => .error "TypeError: Cannot convert undefined or null to object"
  | .vObj fs => .ok fs
  | _ => .ok []

/-- Object-spread contribution of a value (`{...v}`): fields of an object,
nothing for `null`/`undefined`/other primitives (string indexing ignored). -/
def spreadEntries : GVal → Obj
  | .vObj fs => fs
  | _ => []

/-- Property access `v[k]`: throws a `TypeError` on `null`/`undefined`;
on other primitives the logger only reads properties that are absent,
giving `undefined`. -/
def getProp (v : GVal) (k : String) : Except String GVal :=
  match v with
  | .vNull => .error "TypeError: Cannot read properties of null"
  | .vUndefined => .error "TypeError: Cannot read properties of undefined"
  | .vObj fs =>
    match fs.find? (fun p => p.1 = k) with
    | some p => .ok p.2
    | none => .ok .vUndefined
  | _ => .ok .vUndefined

/-- Field lookup in an object body (first occurrence). -/
def getField (o : Obj) (k : String) : Option GVal :=
  (o.find? (fun p => p.1 = k)).map (fun p => p.2)

/-- JavaScript assignment `o[k] = v`: replaces the value in place when the
key exists, appends otherwise. -/
def setField : Obj → String → GVal → Obj
  | [], k, v => [(k, v)]
  | p :: rest, k, v => if p.1 = k then (k, v) :: rest else p :: setField rest k v

/-- A sequence of assignments, applied left to right. -/
def applyWrites (o : Obj) (ws : Obj) : Obj :=
  ws.foldl (fun m kv => setField m kv.1 kv.2) o

/-- The last value written for key `k` in a write sequence, else a default. -/
def lastWriteOr (ws : Obj) (k : String) (d : Option GVal) : Option GVal :=
  match ws.reverse.find? (fun p => p.1 = k) with
  | some p => some p.2
  | none => d


/-- JavaScript `a || b` on optional strings (`""` is falsy). -/
def jsOrStrOpt (v : Option String) (w : Option String) : Option String :=
  match v with
  | some s => if s = "" then w else some s
  | none => w

/-- JavaScript `a || d` yielding a string default. -/
def jsOrStr (v : Option String) (d : String) : String :=
  match v with
  | some s => if s = "" then d else s
  | none => d

/-- JavaScript `a || d` on optional numbers (`0` is falsy). -/
def jsOrNat (v : Option Nat) (d : Nat) : Nat :=
  match v with
  | some n => if n = 0 then d else n
  | none => d

/-- Truthiness of an optional string (`undefined`/`null` and `""` are falsy). -/
def jsTruthyStr (v : Option String) : Bool :=
  match v with
  | some s => s != ""
  | none => false

/-- One entry of the failed-message history, as assembled by the
`_logFailure` call sites (`endpoint` is absent for the two
no-endpoint rejections). -/
structure FailureInfo where
  message : Obj
  reason : String
  error : String
  endpoint : Option String := none
  timestamp : Int := 0

/-- The mutable state of a `GELFLogger` instance together with its
configuration fields.  WebSocket object identity is modelled by
`wsConnRef`, its `readyState` by `wsConnState` (`none` = no connection
object); array identity of the outbound queue is modelled by `wsQueueRef`.
`wsAuthTimeout` models the instance field of the same name, which the
constructor never initialises; `wsAuthTimerArmed` models `_wsAuthTimer`
holding a live timer. -/
structure LoggerState where
  log_session_id : String
  useWebSocket : Bool
  wsEndpoint : Option String
  wsConnRef : Option Nat
  wsConnState : Option Nat
  wsMessageQueue : List Obj
  wsQueueRef : Nat
  wsConnecting : Bool
  wsReconnectAttempts : Nat
  wsMaxReconnectAttempts : Nat
  endpoint : Option String
  accessId : Option String
  accessSecret : Option String
  host : String
  facility : String
  cfContext : Obj
  globalFields : Obj
  minLevel : Nat
  consoleLog : Bool
  overloadConsole : Bool
  timeout : Nat
  pendingCount : Nat
  sent : Nat
  failed : Nat
  skipped : Nat
  failedMessages : List FailureInfo
  maxFailedMessages : Nat
  wsAuthenticated : Bool
  wsAuthTimeout : Option Nat
  wsAuthTimerArmed : Bool

/-- `_logFailure`: append the record, then drop the oldest entry when the
history exceeds `maxFailedMessages`. -/
def logFailure (st : LoggerState) (f : FailureInfo) : LoggerState :=
  let fm := st.failedMessages ++ [f]
  let fm := if st.maxFailedMessages < fm.length then fm.drop 1 else fm
  { st with failedMessages := fm }

/-- The object literal built at the top of `_buildGELFMessage`.  The
wall-clock reading `Date.now() / 1000` is passed in as `now`. -/
def baseMessage (st : LoggerState) (level : Nat) (shortMessage : GVal) (now : Int) : Obj :=
  [("version", .vStr "1.1"),
   ("host", .vStr st.host),
   ("short_message", .vStr (jsToString shortMessage)),
   ("timestamp", .vNum now),
   ("level", .vNum (level : Int)),
   ("facility", .vStr st.facility),
   ("_log_session_id", .vStr st.log_session_id)]

/-- The text stored in `full_message`: non-strings go through
`JSON.stringify`, whose failure falls back to `String(fullMessage)`. -/
def fullMessageText (fullMessage : GVal) : String :=
  if fullMessage.isStringVal then jsToString fullMessage
  else
    match jsonStringify fullMessage with
    | some s => s
    | none => jsToString fullMessage

/-- The `if (fullMessage)` block of `_buildGELFMessage`. -/
def addFullMessage (msg : Obj) (fullMessage : GVal) : Obj :=
  if truthy fullMessage then setField msg "full_message" (.vStr (fullMessageText fullMessage))
  else msg

/-- `key.startsWith('_')`, expressed on the character list. -/
def startsWithUnderscore (k : String) : Bool := k.data.head? = some '_'

/-- `key.startsWith('_') ? key : '_' + key`. -/
def prefixKey (k : String) : String :=
  if startsWithUnderscore k then k else "_" ++ k

/-- The assignments performed by the Cloudflare-context loop: entries with
a `null`/`undefined` value are skipped, keys get the underscore prefix. -/
def contextWrites (ctx : Obj) : Obj :=
  (ctx.filter (fun p => !p.2.isNullish)).map (fun p => (prefixKey p.1, p.2))

/-- The assignments performed by the global-fields loop (no value
filtering, no serialization). -/
def globalWrites (gf : Obj) : Obj :=
  gf.map (fun p => (prefixKey p.1, p.2))

/-- The reserved GELF field names skipped inside the custom-fields loop. -/
def reservedKeys : List String :=
  ["id", "timestamp", "version", "level", "host", "short_message", "full_message"]

/-- Value conversion in the custom-fields loop: `null`/`undefined` become
`null`, objects are JSON-serialized with a `String(value)` fallback,
other primitives pass through. -/
def serializeCustomVal : GVal → GVal
  | .vNull => .vNull
  | .vUndefined => .vNull
  | .vObj fs =>
    match jsonStringify (.vObj fs) with
    | some s => .vStr s
    | none => .vStr (jsToString (.vObj fs))
  | v => v

/-- The assignments performed by the custom-fields loop: reserved keys are
dropped, keys get the underscore prefix, values are converted. -/
def customWrites (custom : Obj) : Obj :=
  (custom.filter (fun p => !reservedKeys.contains p.1)).map
    (fun p => (prefixKey p.1, serializeCustomVal p.2))

/-- `_buildGELFMessage` after `Object.entries(customFields)` has produced
the entry list `custom`: base literal, `full_message`, context loop,
global-fields loop, custom-fields loop, in source order. -/
def buildCore (st : LoggerState) (level : Nat) (short full : GVal) (custom : Obj) (now : Int) : Obj :=
  applyWrites
    (applyWrites
      (applyWrites (addFullMessage (baseMessage st level short now) full)
        (contextWrites st.cfContext))
      (globalWrites st.globalFields))
    (customWrites custom)

/-- `_buildGELFMessage`: throws when `Object.entries(customFields)` does
(that is, when `customFields` is `null`). -/
def buildGELFMessage (st : LoggerState) (level : Nat) (short full customFields : GVal)
    (now : Int) : Except String Obj := do
  let custom ← entriesOf customFields
  .ok (buildCore st level short full custom now)

/-- Completion of the one-shot `fetch`: response received (`ok` or an
error status), the abort fired, or a transport-level failure. -/
inductive FetchOutcome where
  | ok
  | httpError (status : Nat) (statusText : String)
  | abortError
  | networkError (msg : String)

/-- The failure-reason tag the `.then`/`.catch` handlers assign to an
outcome (`none` for a successful response). -/
def reasonOfOutcome : FetchOutcome → Option String
  | .ok => none
  | .httpError _ _ => some "http_error"
  | .abortError => some "timeout"
  | .networkError _ => some "network_error"

/-- The `.then`/`.catch` continuation of the one-shot `fetch` applied to
its settled outcome. -/
def applyFetchOutcome (st : LoggerState) (m : Obj) (outcome : FetchOutcome) (now : Int) :
    LoggerState :=
  match outcome with
  | .ok => { st with sent := st.sent + 1 }
  | .httpError status statusText =>
    logFailure { st with failed := st.failed + 1 }
      { message := m, reason := "http_error",
        error := "HTTP " ++ toString status ++ " " ++ statusText,
        endpoint := st.endpoint, timestamp := now }
  | .abortError =>
    logFailure { st with failed := st.failed + 1 }
      { message := m, reason := "timeout",
        error := "Request timeout after " ++ toString st.timeout ++ "ms",
        endpoint := st.endpoint, timestamp := now }
  | .networkError msg =>
    logFailure { st with failed := st.failed + 1 }
      { message := m, reason := "network_error", error := msg,
        endpoint := st.endpoint, timestamp := now }

/-- The drain loop of `_processWebSocketQueue` over the remaining queue.
`sendErrs` supplies, per send attempt, `none` for success or the thrown
error's message; a message whose serialization throws fails regardless.
On a failure the record is pushed back to the head and the pass stops. -/
def drainGo (now : Int) : LoggerState → List Obj → List (Option String) → LoggerState
  | st, [], _ => { st with wsMessageQueue := [] }
  | st, m :: rest, sendErrs =>
    match jsonStringify (.vObj m) with
    | none =>
      let st := logFailure { st with failed := st.failed + 1 }
        { message := m, reason := "ws_send_error",
          error := "TypeError: Do not know how to serialize a BigInt", timestamp := now }
      { st with wsMessageQueue := m :: rest }
    | some _ =>
      match sendErrs.headD none with
      | none => drainGo now { st with sent := st.sent + 1 } rest sendErrs.tail
      | some emsg =>
        let st := logFailure { st with failed := st.failed + 1 }
          { message := m, reason := "ws_send_error", error := emsg, timestamp := now }
        { st with wsMessageQueue := m :: rest }

/-- `_processWebSocketQueue`: no-op unless the connection exists and its
`readyState` is OPEN (1). -/
def processWebSocketQueue (st : LoggerState) (now : Int) (sendErrs : List (Option String)) :
    LoggerState :=
  if st.wsConnState = some 1 then drainGo now st st.wsMessageQueue sendErrs else st

/-- The synchronous part of `_connectWebSocket`: guarded by `wsConnecting`;
`ctorOk` tells whether `new WebSocket(...)` returned (a fresh CONNECTING
handle `freshRef`) or threw. -/
def connectWebSocket (st : LoggerState) (ctorOk : Bool) (freshRef : Nat) : LoggerState :=
  if st.wsConnecting then st
  else if ctorOk then
    { st with wsConnecting := true, wsConnRef := some freshRef, wsConnState := some 0 }
  else { st with wsConnecting := false }

/-- `_sendWebSocket`: reject with `no_ws_endpoint` when no WebSocket
endpoint is configured; otherwise enqueue and either drain (connection
OPEN) or start a connection attempt (no connection, or CLOSED). -/
def sendWebSocket (st : LoggerState) (m : Obj) (now : Int) (sendErrs : List (Option String))
    (ctorOk : Bool) (freshRef : Nat) : LoggerState :=
  if !jsTruthyStr st.wsEndpoint then
    logFailure { st with failed := st.failed + 1 }
      { message := m, reason := "no_ws_endpoint",
        error := "No WebSocket endpoint configured", timestamp := now }
  else
    let st := { st with wsMessageQueue := st.wsMessageQueue ++ [m] }
    if st.wsConnState = some 1 then processWebSocketQueue st now sendErrs
    else if st.wsConnState = none ∨ st.wsConnState = some 3 then
      connectWebSocket st ctorOk freshRef
    else st

/-- Result of the synchronous part of `_send`: the updated state and the
number of network (fetch) attempts issued. -/
structure SendResult where
  st : LoggerState
  fetches : Nat := 0

/-- The synchronous part of `_send`: WebSocket dispatch, the `no_endpoint`
rejection, or issuing the one-shot `fetch` (whose request body
serialization can throw before any network attempt). -/
def sendSync (st : LoggerState) (m : Obj) (now : Int) (sendErrs : List (Option String))
    (ctorOk : Bool) (freshRef : Nat) : Except String SendResult :=
  if st.useWebSocket then
    .ok { st := sendWebSocket st m now sendErrs ctorOk freshRef }
  else if !jsTruthyStr st.endpoint then
    let st := logFailure { st with failed := st.failed + 1 }
      { message := m, reason := "no_endpoint",
        error := "No GELF endpoint configured", timestamp := now }
    .ok { st := st }
  else
    match jsonStringify (.vObj m) with
    | none => .error "TypeError: Do not know how to serialize a BigInt"
    | some _ => .ok { st := { st with pendingCount := st.pendingCount + 1 }, fetches := 1 }

/-- What a single `_log` call produced: the new state, the record handed
to `_send` (if any), and the number of fetch attempts issued. -/
structure LogOutcome where
  st : LoggerState
  dispatched : Option Obj := none
  fetches : Nat := 0

/-- The `try` body of `_log`: the severity gate, record construction, and
the synchronous part of dispatch.  An `.error` is an exception reaching
the outer catch. -/
def logTry (st : LoggerState) (level : Nat) (short full custom : GVal) (now : Int)
    (sendErrs : List (Option String)) (ctorOk : Bool) (freshRef : Nat) :
    Except String LogOutcome := do
  if st.minLevel < level then
    return { st := { st with skipped := st.skipped + 1 } }
  let fields ← entriesOf custom
  let m := buildCore st level short full fields now
  let r ← sendSync st m now sendErrs ctorOk freshRef
  return { st := r.st, dispatched := some m, fetches := r.fetches }

/-- `_log`: the `try`/`catch` boundary — any exception from the body is
absorbed and counted by incrementing `failed`. -/
def logCall (st : LoggerState) (level : Nat) (short full custom : GVal) (now : Int)
    (sendErrs : List (Option String)) (ctorOk : Bool) (freshRef : Nat) : LogOutcome :=
  match logTry st level short full custom now sendErrs ctorOk freshRef with
  | .ok o => o
  | .error _ => { st := { st with failed := st.failed + 1 } }

/-- `emergency` (level 0). -/
def emergencyCall (st : LoggerState) (short full custom : GVal) (now : Int)
    (sendErrs : List (Option String)) (ctorOk : Bool) (freshRef : Nat) : LogOutcome :=
  logCall st 0 short full custom now sendErrs ctorOk freshRef

/-- `alert` (level 1). -/
def alertCall (st : LoggerState) (short full custom : GVal) (now : Int)
    (sendErrs : List (Option String)) (ctorOk : Bool) (freshRef : Nat) : LogOutcome :=
  logCall st 1 short full custom now sendErrs ctorOk freshRef

/-- `critical` (level 2). -/
def criticalCall (st : LoggerState) (short full custom : GVal) (now : Int)
    (sendErrs : List (Option String)) (ctorOk : Bool) (freshRef : Nat) : LogOutcome :=
  logCall st 2 short full custom now sendErrs ctorOk freshRef

/-- `error` (level 3). -/
def errorCall (st : LoggerState) (short full custom : GVal) (now : Int)
    (sendErrs : List (Option String)) (ctorOk : Bool) (freshRef : Nat) : LogOutcome :=
  logCall st 3 short full custom now sendErrs ctorOk freshRef

/-- `warning` (level 4). -/
def warningCall (st : LoggerState) (short full custom : GVal) (now : Int)
    (sendErrs : List (Option String)) (ctorOk : Bool) (freshRef : Nat) : LogOutcome :=
  logCall st 4 short full custom now sendErrs ctorOk freshRef

/-- `warn`, an alias for `warning`. -/
def warnCall (st : LoggerState) (short full custom : GVal) (now : Int)
    (sendErrs : List (Option String)) (ctorOk : Bool) (freshRef : Nat) : LogOutcome :=
  warningCall st short full custom now sendErrs ctorOk freshRef

/-- `notice` (level 5). -/
def noticeCall (st : LoggerState) (short full custom : GVal) (now : Int)
    (sendErrs : List (Option String)) (ctorOk : Bool) (freshRef : Nat) : LogOutcome :=
  logCall st 5 short full custom now sendErrs ctorOk freshRef

/-- `info` (level 6). -/
def infoCall (st : LoggerState) (short full custom : GVal) (now : Int)
    (sendErrs : List (Option String)) (ctorOk : Bool) (freshRef : Nat) : LogOutcome :=
  logCall st 6 short full custom now sendErrs ctorOk freshRef

/-- `log`, an alias for `info`. -/
def logAliasCall (st : LoggerState) (short full custom : GVal) (now : Int)
    (sendErrs : List (Option String)) (ctorOk : Bool) (freshRef : Nat) : LogOutcome :=
  infoCall st short full custom now sendErrs ctorOk freshRef

/-- `debug` (level 7). -/
def debugCall (st : LoggerState) (short full custom : GVal) (now : Int)
    (sendErrs : List (Option String)) (ctorOk : Bool) (freshRef : Nat) : LogOutcome :=
  logCall st 7 short full custom now sendErrs ctorOk freshRef

/-- `exception(error, customFields)`: the field extraction
(`error.name`, `error.message`, `error.stack`) happens before `_log` is
entered, so a throw here reaches the caller. -/
def exceptionCall (st : LoggerState) (err custom : GVal) (now : Int)
    (sendErrs : List (Option String)) (ctorOk : Bool) (freshRef : Nat) :
    Except String LogOutcome := do
  let ename ← getProp err "name"
  let emsg ← getProp err "message"
  let estack ← getProp err "stack"
  let fields : GVal := .vObj (applyWrites (spreadEntries custom)
    [("exception_type", ename), ("exception_message", emsg), ("exception_stack", estack)])
  return logCall st 3 emsg estack fields now sendErrs ctorOk freshRef

/-- The handshake message assembled inside the `onopen` handler when
Access credentials are configured. -/
def wsAuthMessage (st : LoggerState) : Obj :=
  [("type", .vStr "auth"),
   ("access_id", .vStr (st.accessId.getD "")),
   ("access_secret", .vStr (st.accessSecret.getD "")),
   ("log_session_id", .vStr st.log_session_id)]

/-- What the `onopen` handler did: the resulting state, the handshake
message sent (if any), whether the authentication timer was armed, and
whether `_processWebSocketQueue` was invoked synchronously. -/
structure WsOpenResult where
  st : LoggerState
  authSent : Option Obj := none
  timerStarted : Bool := false
  queueProcessed : Bool := false

/-- The `onopen` handler installed by `_connectWebSocket`.  With
credentials configured it sends the handshake, then evaluates
`if (!this.wsAuthTimeout) this.wsAuthTimeout = config?.wsAuthTimeout || 5000`;
`config` is a constructor parameter not in scope here, so when
`wsAuthTimeout` is unset (it always is — the constructor never sets it)
this line throws a `ReferenceError`, the `catch` runs
`_processWebSocketQueue()` at once, and no timer is armed.  Only if
`wsAuthTimeout` were already set would the timer be armed. -/
def wsOnOpen (st0 : LoggerState) (now : Int) (sendErrs : List (Option String)) : WsOpenResult :=
  let st := { st0 with wsConnecting := false, wsReconnectAttempts := 0,
                       wsConnState := some 1, wsAuthenticated := false }
  if jsTruthyStr st.accessId && jsTruthyStr st.accessSecret then
    match st.wsAuthTimeout with
    | some _ =>
      { st := { st with wsAuthTimerArmed := true },
        authSent := some (wsAuthMessage st), timerStarted := true }
    | none =>
      { st := processWebSocketQueue st now sendErrs,
        authSent := some (wsAuthMessage st), timerStarted := false, queueProcessed := true }
  else
    { st := processWebSocketQueue st now sendErrs, queueProcessed := true }

/-- JavaScript `arr.slice(k)` (single-argument form, negative `k` counts
from the end). -/
def jsSlice {α : Type} (l : List α) (k : Int) : List α :=
  l.drop (if k < 0 then max ((l.length : Int) + k) 0 else min k (l.length : Int)).toNat

/-- `getFailedMessages(limit = null)`:
`limit ? messages.slice(-limit) : messages` over a copy of the history
(`limit` is a number or `null`; `0` is falsy). -/
def getFailedMessages (st : LoggerState) (limit : Option Int) : List FailureInfo :=
  let messages := st.failedMessages
  match limit with
  | none => messages
  | some n => if n = 0 then messages else jsSlice messages (-n)

/-- The summary object returned by `getFailureSummary` — it has exactly
these five counters. -/
structure FailureSummary where
  no_endpoint : Nat
  http_error : Nat
  timeout : Nat
  network_error : Nat
  other : Nat
  deriving Repr, DecidableEq

/-- One step of the `forEach` in `getFailureSummary`: a reason that is an
own property of the summary is counted under itself, anything else under
`other`. -/
def bumpReason (s : FailureSummary) (r : String) : FailureSummary :=
  if r = "no_endpoint" then { s with no_endpoint := s.no_endpoint + 1 }
  else if r = "http_error" then { s with http_error := s.http_error + 1 }
  else if r = "timeout" then { s with timeout := s.timeout + 1 }
  else if r = "network_error" then { s with network_error := s.network_error + 1 }
  else { s with other := s.other + 1 }

/-- `getFailureSummary()`. -/
def getFailureSummary (st : LoggerState) : FailureSummary :=
  st.failedMessages.foldl (fun s f => bumpReason s f.reason) ⟨0, 0, 0, 0, 0⟩

/-- The constructor's configuration argument: explicit options plus the
environment bindings the constructor reads from `config.env`.  Request
extraction is an external collaborator and not embedded. -/
structure Config where
  log_session_id : Option String := none
  endpoint : Option String := none
  useWebSocket : Bool := false
  wsEndpoint : Option String := none
  wsMaxReconnectAttempts : Option Nat := none
  host : Option String := none
  facility : Option String := none
  globalFields : Obj := []
  minLevel : Option Nat := none
  consoleLog : Option Bool := none
  overloadConsole : Option Bool := none
  timeout : Option Nat := none
  maxFailedMessages : Option Nat := none
  envLogSessionId : Option String := none
  envGelfLoggingUrl : Option String := none
  envAccessId : Option String := none
  envAccessSecret : Option String := none
  envWorkerName : Option String := none
  envEnvironment : Option String := none
  envFunctionName : Option String := none

/-- The `GELFLogger` constructor.  `freshUUID` models
`crypto.randomUUID()`; `freshQueueRef` is the identity of the fresh
outbound-queue array. -/
def mkLogger (cfg : Config) (freshUUID : String) (freshQueueRef : Nat) : LoggerState :=
  let endpointRaw := jsOrStrOpt cfg.endpoint cfg.envGelfLoggingUrl
  { log_session_id := jsOrStr (jsOrStrOpt cfg.log_session_id cfg.envLogSessionId) freshUUID
    useWebSocket := cfg.useWebSocket
    wsEndpoint := cfg.wsEndpoint
    wsConnRef := none
    wsConnState := none
    wsMessageQueue := []
    wsQueueRef := freshQueueRef
    wsConnecting := false
    wsReconnectAttempts := 0
    wsMaxReconnectAttempts := jsOrNat cfg.wsMaxReconnectAttempts 5
    endpoint := if !cfg.useWebSocket && !jsTruthyStr endpointRaw then none else endpointRaw
    accessId := cfg.envAccessId
    accessSecret := cfg.envAccessSecret
    host := jsOrStr cfg.host (jsOrStr cfg.envWorkerName "cloudflare-worker")
    facility := jsOrStr cfg.facility "worker"
    cfContext :=
      (if jsTruthyStr cfg.envEnvironment
        then [("environment", GVal.vStr (cfg.envEnvironment.getD ""))] else [])
      ++ (if jsTruthyStr cfg.envFunctionName
        then [("function_name", GVal.vStr (cfg.envFunctionName.getD ""))] else [])
    globalFields := cfg.globalFields
    minLevel := cfg.minLevel.getD 6
    consoleLog := cfg.consoleLog.getD true
    overloadConsole := cfg.overloadConsole.getD false
    timeout := jsOrNat cfg.timeout 5000
    pendingCount := 0
    sent := 0
    failed := 0
    skipped := 0
    failedMessages := []
    maxFailedMessages := jsOrNat cfg.maxFailedMessages 50
    wsAuthenticated := false
    wsAuthTimeout := none
    wsAuthTimerArmed := false }

/-- `child(contextFields)`: a fresh instance built from a config carrying
the listed parent fields and the merged global fields, after which the
Cloudflare context, session id and credentials are copied over, and —
for WebSocket transport — the parent's connection object and queue array
are shared by reference. -/
def childLogger (p : LoggerState) (contextFields : Obj) (freshUUID : String)
    (freshQueueRef : Nat) : LoggerState :=
  let c := mkLogger
    { endpoint := p.endpoint
      useWebSocket := p.useWebSocket
      wsEndpoint := p.wsEndpoint
      host := some p.host
      facility := some p.facility
      globalFields := applyWrites p.globalFields contextFields
      minLevel := some p.minLevel
      consoleLog := some p.consoleLog
      overloadConsole := some p.overloadConsole
      timeout := some p.timeout } freshUUID freshQueueRef
  let c := { c with cfContext := p.cfContext, log_session_id := p.log_session_id,
                    accessId := p.accessId, accessSecret := p.accessSecret }
  if p.useWebSocket then
    { c with wsConnRef := p.wsConnRef, wsConnState := p.wsConnState,
             wsMessageQueue := p.wsMessageQueue, wsQueueRef := p.wsQueueRef }
  else c

theorem getField_cons (p : String × GVal) (rest : Obj) (k : String) :
    getField (p :: rest) k = if p.1 = k then some p.2 else getField rest k := by
  by_cases h : p.1 = k <;> simp [getField, List.find?_cons, h]

theorem getField_setField (o : Obj) (a k : String) (v : GVal) :
    getField (setField o a v) k = if a = k then some v else getField o k := by
  induction o with
  | nil =>
    by_cases h : a = k <;> simp [setField, getField, List.find?, h]
  | cons p rest ih =>
    by_cases hp : p.1 = a
    · rw [show setField (p :: rest) a v = (a, v) :: rest by simp [setField, hp]]
      rw [getField_cons, getField_cons]
      by_cases h : a = k
      · simp [h]
      · simp [h, hp, getField]
    · rw [show setField (p :: rest) a v = p :: setField rest a v by simp [setField, hp]]
      rw [getField_cons, getField_cons, ih]
      by_cases h : a = k
      · subst h
        simp [hp]
      · simp [h]

theorem applyWrites_append (o : Obj) (a b : Obj) :
    applyWrites o (a ++ b) = applyWrites (applyWrites o a) b := by
  simp [applyWrites, List.foldl_append]

theorem lastWriteOr_nil (k : String) (d : Option GVal) : lastWriteOr [] k d = d := rfl

theorem lastWriteOr_cons (w : String × GVal) (ws : Obj) (k : String) (d : Option GVal) :
    lastWriteOr (w :: ws) k d = lastWriteOr ws k (if w.1 = k then some w.2 else d) := by
  simp only [lastWriteOr, List.reverse_cons, List.find?_append]
  cases hf : List.find? (fun p => decide (p.1 = k)) ws.reverse with
  | some p => simp [Option.or]
  | none =>
    by_cases h : w.1 = k <;> simp [Option.or, List.find?, h]

theorem getField_applyWrites (ws : Obj) (o : Obj) (k : String) :
    getField (applyWrites o ws) k = lastWriteOr ws k (getField o k) := by
  induction ws generalizing o with
  | nil => simp [applyWrites, lastWriteOr_nil]
  | cons w ws ih =>
    rw [show applyWrites o (w :: ws) = applyWrites (setField o w.1 w.2) ws from rfl,
      ih, lastWriteOr_cons, getField_setField]

theorem lastWriteOr_eq_default (ws : Obj) (k : String) (d : Option GVal)
    (h : ∀ p ∈ ws, p.1 ≠ k) : lastWriteOr ws k d = d := by
  unfold lastWriteOr
  have hnone : List.find? (fun p => decide (p.1 = k)) ws.reverse = none := by
    rw [List.find?_eq_none]
    intro p hp
    simpa using h p (List.mem_reverse.mp hp)
  rw [hnone]

theorem prefixKey_head (k : String) : (prefixKey k).data.head? = some '_' := by
  unfold prefixKey
  split
  · next h =>
      simpa [startsWithUnderscore] using h
  · simp [String.data_append]

theorem reserved_head (r : String) (hr : r ∈ reservedKeys) : r.data.head? ≠ some '_' := by
  fin_cases hr <;> decide

theorem prefixKey_not_reserved (k r : String) (hr : r ∈ reservedKeys) : prefixKey k ≠ r := by
  intro h
  exact reserved_head r hr (h ▸ prefixKey_head k)

theorem builder_writes_prefixed (ctx gf cs : Obj) :
    ∀ p ∈ contextWrites ctx ++ globalWrites gf ++ customWrites cs,
      ∃ k0, p.1 = prefixKey k0 := by
  intro p hp
  rcases List.mem_append.mp hp with hp1 | hc
  · rcases List.mem_append.mp hp1 with hctx | hg
    · rcases List.mem_map.mp hctx with ⟨q, _, hq⟩
      exact ⟨q.1, by rw [← hq]⟩
    · rcases List.mem_map.mp hg with ⟨q, _, hq⟩
      exact ⟨q.1, by rw [← hq]⟩
  · rcases List.mem_map.mp hc with ⟨q, _, hq⟩
    exact ⟨q.1, by rw [← hq]⟩

/-- Most recent entry of the failure history. -/
def lastFailure (st : LoggerState) : Option FailureInfo := st.failedMessages.getLast?

/-- Whether an `Except` carries a value. -/
def isOkE {ε α : Type} : Except ε α → Bool
  | .ok _ => true
  | .error _ => false

theorem lastFailure_logFailure (st : LoggerState) (f : FailureInfo)
    (hmax : 0 < st.maxFailedMessages) : lastFailure (logFailure st f) = some f := by
  unfold lastFailure logFailure
  cases hl : st.failedMessages with
  | nil =>
    simp only [hl, List.nil_append, List.length_cons, List.length_nil]
    rw [if_neg (by omega)]
    rfl
  | cons a l =>
    simp only [hl]
    split
    · rw [show (((a :: l) ++ [f]).drop 1) = l ++ [f] by simp]
      exact List.getLast?_concat _
    · exact List.getLast?_concat _

theorem serializeCustomVal_not_obj (v : GVal) : (serializeCustomVal v).isObjVal = false := by
  cases v with
  | vObj fs =>
    cases h : jsonStringify (.vObj fs) <;> simp [serializeCustomVal, h, GVal.isObjVal]
  | vNull => rfl
  | vUndefined => rfl
  | vBool b => rfl
  | vNum n => rfl
  | vStr s => rfl
  | vBigInt n => rfl

theorem getField_addFullMessage_ne (msg : Obj) (full : GVal) (k : String)
    (hk : k ≠ "full_message") :
    getField (addFullMessage msg full) k = getField msg k := by
  unfold addFullMessage
  split
  · rw [getField_setField, if_neg (fun h => hk h.symm)]
  · rfl

theorem getProp_ok (v : GVal) (k : String) (h : v.isNullish = false) :
    ∃ w, getProp v k = .ok w := by
  cases v with
  | vNull => simp [GVal.isNullish] at h
  | vUndefined => simp [GVal.isNullish] at h
  | vObj fs =>
    cases hf : fs.find? (fun p => p.1 = k) with
    | none => exact ⟨.vUndefined, by simp [getProp, hf]⟩
    | some p => exact ⟨p.2, by simp [getProp, hf]⟩
  | vBool b => exact ⟨_, rfl⟩
  | vNum n => exact ⟨_, rfl⟩
  | vStr s => exact ⟨_, rfl⟩
  | vBigInt n => exact ⟨_, rfl⟩

/-- A logger with a configured one-shot endpoint and default options, used
as a concrete evaluation point. -/
def baseSt : LoggerState :=
  mkLogger { endpoint := some "https://logs.example/gelf" } "uuid-1" 0

/-- A logger constructed with no endpoint anywhere (the constructor's
validation nulls the endpoint). -/
def noEndpointSt : LoggerState := mkLogger {} "uuid-2" 0

/-- **C10**: `getFailedMessages(0)` returns the entire retained failure
history — an explicit limit of `0` is falsy in `limit ? ... : messages`
and is treated the same as no limit, not as "return nothing". -/
theorem gelf_c10_zero_limit_returns_all (st : LoggerState) :
    getFailedMessages st (some 0) = st.failedMessages
    ∧ getFailedMessages st (some 0) = getFailedMessages st none := by
  constructor <;> simp [getFailedMessages]

/-- **C8 (amended)**: with a positive limit `n`, `getFailedMessages`
returns the `min(n, count)` most recent failure records — but in stored
(oldest-first) order, i.e. the length-`min(n, count)` suffix of the
history, equal to reversing the `n` newest taken newest-first; with no
limit it returns the whole history. -/
theorem gelf_c8_failed_messages_suffix (st : LoggerState) (n : Int) (hn : 0 < n) :
    getFailedMessages st (some n) = (st.failedMessages.reverse.take n.toNat).reverse
    ∧ getFailedMessages st none = st.failedMessages := by
  refine ⟨?_, rfl⟩
  rw [show getFailedMessages st (some n) = jsSlice st.failedMessages (-n) by
    simp [getFailedMessages, show n ≠ 0 by omega]]
  rw [List.take_reverse, List.reverse_reverse]
  unfold jsSlice
  rw [if_pos (show -n < 0 by omega)]
  congr 1
  omega

/-- A network failure record used as concrete data. -/
def fRecA : FailureInfo :=
  { message := [], reason := "network_error", error := "boom", timestamp := 1 }

/-- A timeout failure record used as concrete data. -/
def fRecB : FailureInfo :=
  { message := [], reason := "timeout", error := "slow", timestamp := 2 }

/-- A logger whose history holds `fRecA` then `fRecB` (most recent). -/
def st8 : LoggerState := logFailure (logFailure baseSt fRecA) fRecB

/-- **C8 (counterexample)**: with two retained failures, the older one
recorded first, `getFailedMessages(2)` returns them oldest-first
(`[fRecA, fRecB]`), not most-recent-first (`[fRecB, fRecA]`) as the claim
states. -/
theorem gelf_c8_counterexample :
    getFailedMessages st8 (some 2) = [fRecA, fRecB]
    ∧ getFailedMessages st8 (some 2) ≠ [fRecB, fRecA] := by
  refine ⟨rfl, ?_⟩
  intro h
  rw [show getFailedMessages st8 (some 2) = [fRecA, fRecB] from rfl] at h
  have hr := congrArg (fun l => (l.headD fRecA).reason) h
  simp only [List.headD_cons] at hr
  exact absurd hr (by decide)

/-- **C8 (witness)**: at limit 1 on the two-entry history, the theorem
yields exactly the single most recent record. -/
theorem gelf_c8_witness : getFailedMessages st8 (some 1) = [fRecB] :=
  (gelf_c8_failed_messages_suffix st8 1 (by decide)).1.trans rfl

theorem bumpReason_no_endpoint (s : FailureSummary) (r : String) :
    (bumpReason s r).no_endpoint =
      if r = "no_endpoint" then s.no_endpoint + 1 else s.no_endpoint := by
  unfold bumpReason
  split_ifs <;> rfl

theorem bumpReason_http_error (s : FailureSummary) (r : String) :
    (bumpReason s r).http_error =
      if r = "http_error" then s.http_error + 1 else s.http_error := by
  unfold bumpReason
  split_ifs <;> simp_all

theorem bumpReason_timeout (s : FailureSummary) (r : String) :
    (bumpReason s r).timeout = if r = "timeout" then s.timeout + 1 else s.timeout := by
  unfold bumpReason
  split_ifs <;> simp_all

theorem bumpReason_network_error (s : FailureSummary) (r : String) :
    (bumpReason s r).network_error =
      if r = "network_error" then s.network_error + 1 else s.network_error := by
  unfold bumpReason
  split_ifs <;> simp_all

theorem bumpReason_other (s : FailureSummary) (r : String) :
    (bumpReason s r).other =
      if r = "no_endpoint" ∨ r = "http_error" ∨ r = "timeout" ∨ r = "network_error"
      then s.other else s.other + 1 := by
  unfold bumpReason
  split_ifs <;> simp_all

/-- Number of retained failure records carrying a given reason tag. -/
def countReason (st : LoggerState) (r : String) : Nat :=
  (st.failedMessages.filter (fun f => f.reason == r)).length

theorem foldl_bump_no_endpoint (l : List FailureInfo) (s : FailureSummary) :
    (l.foldl (fun s f => bumpReason s f.reason) s).no_endpoint =
      s.no_endpoint + (l.filter (fun f => f.reason == "no_endpoint")).length := by
  induction l generalizing s with
  | nil => simp
  | cons f l ih =>
    rw [List.foldl_cons, ih, bumpReason_no_endpoint]
    by_cases h : f.reason = "no_endpoint" <;> simp [h, List.filter_cons] <;> omega

theorem foldl_bump_http_error (l : List FailureInfo) (s : FailureSummary) :
    (l.foldl (fun s f => bumpReason s f.reason) s).http_error =
      s.http_error + (l.filter (fun f => f.reason == "http_error")).length := by
  induction l generalizing s with
  | nil => simp
  | cons f l ih =>
    rw [List.foldl_cons, ih, bumpReason_http_error]
    by_cases h : f.reason = "http_error" <;> simp [h, List.filter_cons] <;> omega

theorem foldl_bump_timeout (l : List FailureInfo) (s : FailureSummary) :
    (l.foldl (fun s f => bumpReason s f.reason) s).timeout =
      s.timeout + (l.filter (fun f => f.reason == "timeout")).length := by
  induction l generalizing s with
  | nil => simp
  | cons f l ih =>
    rw [List.foldl_cons, ih, bumpReason_timeout]
    by_cases h : f.reason = "timeout" <;> simp [h, List.filter_cons] <;> omega

theorem foldl_bump_network_error (l : List FailureInfo) (s : FailureSummary) :
    (l.foldl (fun s f => bumpReason s f.reason) s).network_error =
      s.network_error + (l.filter (fun f => f.reason == "network_error")).length := by
  induction l generalizing s with
  | nil => simp
  | cons f l ih =>
    rw [List.foldl_cons, ih, bumpReason_network_error]
    by_cases h : f.reason = "network_error" <;> simp [h, List.filter_cons] <;> omega

theorem foldl_bump_other (l : List FailureInfo) (s : FailureSummary) :
    (l.foldl (fun s f => bumpReason s f.reason) s).other =
      s.other + (l.filter (fun f => !(f.reason == "no_endpoint"
        || f.reason == "http_error" || f.reason == "timeout"
        || f.reason == "network_error"))).length := by
  induction l generalizing s with
  | nil => simp
  | cons f l ih =>
    rw [List.foldl_cons, ih, bumpReason_other]
    by_cases h1 : f.reason = "no_endpoint"
    · simp [h1, List.filter_cons]
    · by_cases h2 : f.reason = "http_error"
      · simp [h2, List.filter_cons]
      · by_cases h3 : f.reason = "timeout"
        · simp [h3, List.filter_cons]
        · by_cases h4 : f.reason = "network_error"
          · simp [h4, List.filter_cons]
          · simp [h1, h2, h3, h4, List.filter_cons]
            omega

/-- **C9 (amended)**: `getFailureSummary` counts, per retained failure
record, only the four reasons that are keys of the summary object
(`no_endpoint`, `http_error`, `timeout`, `network_error`); every record
with any other reason — including `no_ws_endpoint` and `ws_send_error` —
is bucketed into `other`, and the summary carries no key for them. -/
theorem gelf_c9_failure_summary (st : LoggerState) :
    (getFailureSummary st).no_endpoint = countReason st "no_endpoint"
    ∧ (getFailureSummary st).http_error = countReason st "http_error"
    ∧ (getFailureSummary st).timeout = countReason st "timeout"
    ∧ (getFailureSummary st).network_error = countReason st "network_error"
    ∧ (getFailureSummary st).other =
        (st.failedMessages.filter (fun f => !(f.reason == "no_endpoint"
          || f.reason == "http_error" || f.reason == "timeout"
          || f.reason == "network_error"))).length := by
  unfold getFailureSummary countReason
  refine ⟨?_, ?_, ?_, ?_, ?_⟩
  · rw [foldl_bump_no_endpoint]; simp
  · rw [foldl_bump_http_error]; simp
  · rw [foldl_bump_timeout]; simp
  · rw [foldl_bump_network_error]; simp
  · rw [foldl_bump_other]; simp

/-- A logger that recorded one `no_ws_endpoint` failure. -/
def st9 : LoggerState := logFailure baseSt
  { message := [], reason := "no_ws_endpoint",
    error := "No WebSocket endpoint configured", timestamp := 0 }

/-- **C9 (counterexample)**: a retained `no_ws_endpoint` failure is
counted under `other` — the summary object has no `no_ws_endpoint` (or
`ws_send_error`) key at all, contradicting the claimed taxonomy. -/
theorem gelf_c9_counterexample :
    getFailureSummary st9 =
      { no_endpoint := 0, http_error := 0, timeout := 0, network_error := 0, other := 1 } := by
  decide

/-- **C2 (amended)**: when `level > minLevel`, `_log` increments `skipped`
by exactly 1, builds no record, dispatches nothing, and changes no other
logger state; when `level <= minLevel` and record construction succeeds
(`Object.entries(customFields)` does not throw — it throws exactly when
`customFields` is `null`), the built record is handed to the selected
transport.  (Unamended, the second half fails when construction throws:
then `failed` increments and nothing is dispatched.) -/
theorem gelf_c2_severity_gate (st : LoggerState) (level : Nat) (short full custom : GVal)
    (now : Int) (sendErrs : List (Option String)) (ctorOk : Bool) (freshRef : Nat)
    (fields : Obj) (r : SendResult) :
    (st.minLevel < level →
      logCall st level short full custom now sendErrs ctorOk freshRef =
        { st := { st with skipped := st.skipped + 1 }, dispatched := none, fetches := 0 })
    ∧ (level ≤ st.minLevel → entriesOf custom = .ok fields →
      sendSync st (buildCore st level short full fields now) now sendErrs ctorOk freshRef
        = .ok r →
      logCall st level short full custom now sendErrs ctorOk freshRef =
        { st := r.st, dispatched := some (buildCore st level short full fields now),
          fetches := r.fetches }) := by
  constructor
  · intro h
    simp [logCall, logTry, h, pure, Except.pure]
  · intro h he hs
    simp [logCall, logTry, Not.intro (fun hlt => absurd h (not_le.mpr hlt)),
      he, hs, bind, Except.bind, Functor.map, Except.map, pure, Except.pure]

/-- **C2 (counterexample)**: at level 6 with `minLevel` 6 the gate admits
the call, yet with `customFields = null` no record is built or dispatched
— `Object.entries(null)` throws and the catch increments `failed`. -/
theorem gelf_c2_counterexample :
    6 ≤ baseSt.minLevel
    ∧ logCall baseSt 6 (.vStr "m") .vNull .vNull 0 [] false 0 =
        { st := { baseSt with failed := baseSt.failed + 1 }, dispatched := none, fetches := 0 } :=
  ⟨by decide, rfl⟩

/-- **C2 (witness)**: a level-7 call against the default `minLevel` 6 is
skipped with exactly the skipped counter bumped. -/
theorem gelf_c2_witness :
    logCall baseSt 7 (.vStr "m") .vNull (.vObj []) 0 [] false 0 =
      { st := { baseSt with skipped := baseSt.skipped + 1 }, dispatched := none, fetches := 0 } :=
  (gelf_c2_severity_gate baseSt 7 (.vStr "m") .vNull (.vObj []) 0 [] false 0 []
    { st := baseSt }).1 (by decide)

/-- **C1 (amended)**: any exception thrown inside `_log`'s body (record
construction or synchronous dispatch) is absorbed at the `_log` boundary
and counted by incrementing `failed`, so the per-severity methods always
return normally; and `exception(error, ...)` also returns normally
provided its `error` argument is not `null`/`undefined`.  (Unamended,
the claim fails for `exception`: its field extraction `error.name` runs
before the guarded `_log` and throws to the caller on a nullish
argument.) -/
theorem gelf_c1_failures_absorbed (st : LoggerState) (level : Nat)
    (short full custom err ecf : GVal) (now : Int) (sendErrs : List (Option String))
    (ctorOk : Bool) (freshRef : Nat) (e : String) (hnn : err.isNullish = false) :
    (logTry st level short full custom now sendErrs ctorOk freshRef = .error e →
      logCall st level short full custom now sendErrs ctorOk freshRef =
        { st := { st with failed := st.failed + 1 }, dispatched := none, fetches := 0 })
    ∧ isOkE (exceptionCall st err ecf now sendErrs ctorOk freshRef) = true := by
  constructor
  · intro h
    simp [logCall, h]
  · obtain ⟨n1, h1⟩ := getProp_ok err "name" hnn
    obtain ⟨n2, h2⟩ := getProp_ok err "message" hnn
    obtain ⟨n3, h3⟩ := getProp_ok err "stack" hnn
    simp [exceptionCall, h1, h2, h3, bind, Except.bind, pure, Except.pure, isOkE]

/-- **C1 (counterexample)**: the public method `exception`, called with a
`null` error value, throws a `TypeError` to the caller instead of
returning normally. -/
theorem gelf_c1_counterexample :
    exceptionCall baseSt .vNull (.vObj []) 0 [] false 0 =
      .error "TypeError: Cannot read properties of null" := rfl

/-- **C1 (witness)**: a concrete call whose record construction throws
(`customFields = null`) returns normally with `failed` bumped, and a
concrete `exception` call with a real error object returns normally. -/
theorem gelf_c1_witness :
    logCall baseSt 5 (.vStr "w") .vNull .vNull 0 [] false 0 =
      { st := { baseSt with failed := baseSt.failed + 1 }, dispatched := none, fetches := 0 }
    ∧ isOkE (exceptionCall baseSt
        (.vObj [("name", .vStr "E"), ("message", .vStr "m"), ("stack", .vStr "s")])
        (.vObj []) 0 [] false 0) = true := by
  have h := gelf_c1_failures_absorbed baseSt 5 (.vStr "w") .vNull .vNull
    (.vObj [("name", .vStr "E"), ("message", .vStr "m"), ("stack", .vStr "s")])
    (.vObj []) 0 [] false 0 "TypeError: Cannot convert undefined or null to object" (by decide)
  exact ⟨h.1 rfl, h.2⟩

/-- **C3**: fields are applied in source order — base/`full_message`
fields, then context entries (nullish values skipped, keys prefixed),
then global fields (keys prefixed), then per-call custom fields (keys
prefixed, reserved names dropped) — with the last write for a key
winning; and no write of the three loops can touch a reserved key, so
reserved fields always keep their base value. -/
theorem gelf_c3_field_application_order (st : LoggerState) (level : Nat)
    (short full : GVal) (custom : Obj) (now : Int) :
    (∀ k, getField (buildCore st level short full custom now) k =
      lastWriteOr (contextWrites st.cfContext ++ globalWrites st.globalFields
          ++ customWrites custom) k
        (getField (addFullMessage (baseMessage st level short now) full) k))
    ∧ (∀ r ∈ reservedKeys, getField (buildCore st level short full custom now) r =
        getField (addFullMessage (baseMessage st level short now) full) r) := by
  have hchar : ∀ k, getField (buildCore st level short full custom now) k =
      lastWriteOr (contextWrites st.cfContext ++ globalWrites st.globalFields
          ++ customWrites custom) k
        (getField (addFullMessage (baseMessage st level short now) full) k) := by
    intro k
    unfold buildCore
    rw [← applyWrites_append, ← applyWrites_append, getField_applyWrites]
    rw [List.append_assoc]
  refine ⟨hchar, fun r hr => ?_⟩
  rw [hchar r]
  apply lastWriteOr_eq_default
  intro p hp
  obtain ⟨k0, hk0⟩ := builder_writes_prefixed st.cfContext st.globalFields custom p hp
  rw [hk0]
  exact prefixKey_not_reserved k0 r hr

/-- **C3 (witness)**: concretely, a custom field named `host` (a reserved
key) cannot displace the required `host` field of the record. -/
theorem gelf_c3_witness :
    getField (buildCore baseSt 6 (.vStr "m") .vNull [("host", .vStr "evil")] 0) "host" =
      getField (addFullMessage (baseMessage baseSt 6 (.vStr "m") 0) .vNull) "host" :=
  (gelf_c3_field_application_order baseSt 6 (.vStr "m") .vNull
    [("host", .vStr "evil")] 0).2 "host" (by decide)

/-- **C4 (amended)**: every built record has `short_message`, `host`,
`level` and `version` set; every field written by the per-call
custom-fields loop holds a primitive or JSON-serialized text — never a
live object — with serialization failure falling back to `String(value)`
without raising.  (Unamended, the claim is false: values of ambient
context and global fields are copied verbatim, so an object-valued
global field puts a live object in the record.) -/
theorem gelf_c4_required_fields_and_custom_serialization (st : LoggerState) (level : Nat)
    (short full : GVal) (custom : Obj) (now : Int) :
    (∃ s, getField (buildCore st level short full custom now) "short_message"
      = some (.vStr s))
    ∧ getField (buildCore st level short full custom now) "host" = some (.vStr st.host)
    ∧ getField (buildCore st level short full custom now) "version" = some (.vStr "1.1")
    ∧ getField (buildCore st level short full custom now) "level"
        = some (.vNum (level : Int))
    ∧ (∀ p ∈ customWrites custom, p.2.isObjVal = false) := by
  have hres := (gelf_c3_field_application_order st level short full custom now).2
  have hshort : getField (buildCore st level short full custom now) "short_message" =
      some (.vStr (jsToString short)) := by
    rw [hres "short_message" (by decide),
      getField_addFullMessage_ne _ _ _ (by decide)]
    rfl
  refine ⟨⟨jsToString short, hshort⟩, ?_, ?_, ?_, ?_⟩
  · rw [hres "host" (by decide), getField_addFullMessage_ne _ _ _ (by decide)]
    rfl
  · rw [hres "version" (by decide), getField_addFullMessage_ne _ _ _ (by decide)]
    rfl
  · rw [hres "level" (by decide), getField_addFullMessage_ne _ _ _ (by decide)]
    rfl
  · intro p hp
    obtain ⟨q, _, hq⟩ := List.mem_map.mp hp
    rw [← hq]
    exact serializeCustomVal_not_obj q.2

/-- A logger whose global fields hold a live object value. -/
def gObjSt : LoggerState := mkLogger
  { endpoint := some "https://logs.example/gelf"
    globalFields := [("g", .vObj [("x", .vNum 1)])] } "uuid-4" 0

/-- **C4 (counterexample)**: with an object-valued global field `g`, the
built record's `_g` field holds the object itself (the global-fields
loop performs no serialization), contradicting the claim that every
prefixed field from global fields holds only a primitive or serialized
text. -/
theorem gelf_c4_counterexample :
    getField (buildCore gObjSt 6 (.vStr "m") .vNull [] 0) "_g"
      = some (.vObj [("x", .vNum 1)])
    ∧ (GVal.vObj [("x", .vNum 1)]).isObjVal = true :=
  ⟨rfl, rfl⟩

/-- **C4 (witness)**: a concrete record carries the four required fields,
and a custom field whose object value cannot be serialized (it contains
a BigInt) falls back to `String(value)` text rather than a live object. -/
theorem gelf_c4_witness :
    getField (buildCore baseSt 6 (.vStr "hello") .vNull
        [("bad", .vObj [("big", .vBigInt 1)])] 0) "version" = some (.vStr "1.1")
    ∧ (∀ p ∈ customWrites [(("bad" : String), GVal.vObj [("big", .vBigInt 1)])],
        p.2.isObjVal = false)
    ∧ getField (buildCore baseSt 6 (.vStr "hello") .vNull
        [("bad", .vObj [("big", .vBigInt 1)])] 0) "_bad"
      = some (.vStr "[object Object]") := by
  have h := gelf_c4_required_fields_and_custom_serialization baseSt 6 (.vStr "hello")
    .vNull [("bad", .vObj [("big", .vBigInt 1)])] 0
  exact ⟨h.2.2.1, h.2.2.2.2, rfl⟩

/-- The failure record `_send` builds for the no-endpoint rejection. -/
def noEndpointRec (m : Obj) (now : Int) : FailureInfo :=
  { message := m, reason := "no_endpoint",
    error := "No GELF endpoint configured", timestamp := now }

/-- The state after `_send` rejects a record for lack of an endpoint. -/
def noEndpointFailSt (st : LoggerState) (m : Obj) (now : Int) : LoggerState :=
  logFailure { st with failed := st.failed + 1 } (noEndpointRec m now)

/-- The failure record the `.then`/`.catch` handlers build for a settled
non-ok outcome (arbitrary value for `.ok`, which records no failure). -/
def outcomeRec (st : LoggerState) (m : Obj) (outcome : FetchOutcome) (now : Int) :
    FailureInfo :=
  match outcome with
  | .ok => noEndpointRec m now
  | .httpError status statusText =>
    { message := m, reason := "http_error",
      error := "HTTP " ++ toString status ++ " " ++ statusText,
      endpoint := st.endpoint, timestamp := now }
  | .abortError =>
    { message := m, reason := "timeout",
      error := "Request timeout after " ++ toString st.timeout ++ "ms",
      endpoint := st.endpoint, timestamp := now }
  | .networkError emsg =>
    { message := m, reason := "network_error", error := emsg,
      endpoint := st.endpoint, timestamp := now }

/-- **C5**: on the one-shot (HTTP) transport — with no endpoint the send
is rejected before any network attempt (`fetches = 0`), `failed` is
incremented and a `no_endpoint` failure recorded; with an endpoint
exactly one fetch is issued and the completion handler issues no further
attempt (no retry); the settled outcome increments `sent` on an `ok`
response, else increments `failed` and records a failure whose reason is
`http_error` for a non-success response, and for an I/O failure is
`timeout` precisely when the abort (the bounded cancellation, default
5000 ms via `jsOrNat cfg.timeout 5000`) fired, `network_error`
otherwise. -/
theorem gelf_c5_one_shot_transport (st : LoggerState) (m : Obj) (now : Int)
    (sendErrs : List (Option String)) (ctorOk : Bool) (freshRef : Nat)
    (outcome : FetchOutcome) (body : String)
    (hws : st.useWebSocket = false) (hmax : 0 < st.maxFailedMessages) :
    (st.endpoint = none →
      sendSync st m now sendErrs ctorOk freshRef =
        .ok { st := noEndpointFailSt st m now, fetches := 0 }
      ∧ lastFailure (noEndpointFailSt st m now) = some (noEndpointRec m now)
      ∧ (noEndpointRec m now).reason = "no_endpoint")
    ∧ (∀ e, st.endpoint = some e → e ≠ "" → jsonStringify (.vObj m) = some body →
      sendSync st m now sendErrs ctorOk freshRef =
        .ok { st := { st with pendingCount := st.pendingCount + 1 }, fetches := 1 })
    ∧ (applyFetchOutcome st m .ok now = { st with sent := st.sent + 1 })
    ∧ (∀ ro, reasonOfOutcome outcome = some ro →
        applyFetchOutcome st m outcome now =
          logFailure { st with failed := st.failed + 1 } (outcomeRec st m outcome now)
        ∧ (outcomeRec st m outcome now).reason = ro
        ∧ lastFailure (applyFetchOutcome st m outcome now)
            = some (outcomeRec st m outcome now))
    ∧ (reasonOfOutcome outcome = some "timeout" ↔ outcome = .abortError) := by
  refine ⟨?_, ?_, rfl, ?_, ?_⟩
  · intro he
    refine ⟨?_, ?_, rfl⟩
    · simp [sendSync, hws, he, jsTruthyStr, noEndpointFailSt, noEndpointRec]
    · exact lastFailure_logFailure _ _ (by simpa using hmax)
  · intro e he hne hb
    rw [show sendSync st m now sendErrs ctorOk freshRef =
        (if st.useWebSocket then
          Except.ok { st := sendWebSocket st m now sendErrs ctorOk freshRef }
         else if !jsTruthyStr st.endpoint then
          Except.ok { st := noEndpointFailSt st m now }
         else
          match jsonStringify (.vObj m) with
          | none => Except.error "TypeError: Do not know how to serialize a BigInt"
          | some _ =>
            Except.ok { st := { st with pendingCount := st.pendingCount + 1 }, fetches := 1 })
        from rfl]
    rw [if_neg (by simp [hws]), if_neg (by simp [jsTruthyStr, he, hne]), hb]
  · intro ro hro
    have hmax2 : 0 < ({ st with failed := st.failed + 1 } : LoggerState).maxFailedMessages := by
      simpa using hmax
    cases outcome with
    | ok => simp [reasonOfOutcome] at hro
    | httpError status statusText =>
      simp only [reasonOfOutcome, Option.some.injEq] at hro
      exact ⟨rfl, hro, lastFailure_logFailure _ _ hmax2⟩
    | abortError =>
      simp only [reasonOfOutcome, Option.some.injEq] at hro
      exact ⟨rfl, hro, lastFailure_logFailure _ _ hmax2⟩
    | networkError emsg =>
      simp only [reasonOfOutcome, Option.some.injEq] at hro
      exact ⟨rfl, hro, lastFailure_logFailure _ _ hmax2⟩
  · cases outcome <;> simp [reasonOfOutcome]

/-- **C5 (witness)**: the no-endpoint rejection evaluated concretely —
against `noEndpointSt` a send fails without issuing a fetch, the
recorded reason is `no_endpoint`, and the abort outcome is the one
classified `timeout`. -/
theorem gelf_c5_witness :
    sendSync noEndpointSt [] 0 [] false 0 =
      .ok { st := noEndpointFailSt noEndpointSt [] 0, fetches := 0 }
    ∧ (reasonOfOutcome .abortError = some "timeout" ↔ (FetchOutcome.abortError = .abortError)) := by
  have h := gelf_c5_one_shot_transport noEndpointSt [] 0 [] false 0 .abortError ""
    (by decide) (by decide)
  exact ⟨(h.1 rfl).1, h.2.2.2.2⟩

/-- A WebSocket logger constructed with Access credentials configured. -/
def credSt : LoggerState := mkLogger
  { useWebSocket := true
    wsEndpoint := some "wss://logs.example/ws"
    envAccessId := some "id-1"
    envAccessSecret := some "secret-1" } "uuid-6" 0

/-- **C6**: evaluated at the failing input — the `open` event of a
credentialed connection on a freshly constructed logger — the handler
sends the single handshake message of the documented shape, but arms no
authentication timer and instead drains the queue immediately: the line
that should set the timeout reads `config?.wsAuthTimeout`, and `config`
is not in scope inside `_connectWebSocket`, so a `ReferenceError` lands
in the `catch` which calls `_processWebSocketQueue()` at once.  (The
constructor never sets `wsAuthTimeout`, so the throwing guard always
runs; the `auth_ack` handler is additionally installed only inside
`_setupConsoleOverload`.) -/
theorem gelf_c6_auth_timer_never_armed :
    (wsOnOpen credSt 0 []).authSent = some
      [("type", .vStr "auth"), ("access_id", .vStr "id-1"),
       ("access_secret", .vStr "secret-1"), ("log_session_id", .vStr "uuid-6")]
    ∧ (wsOnOpen credSt 0 []).timerStarted = false
    ∧ (wsOnOpen credSt 0 []).queueProcessed = true
    ∧ (wsOnOpen credSt 0 []).st.wsAuthTimerArmed = false
    ∧ credSt.wsAuthTimeout = none :=
  ⟨rfl, rfl, rfl, rfl, rfl⟩

/-- **C7 (amended)**: `child(extraFields)` shares the parent's endpoint,
transport selection, host, facility, minimum level, console flags,
timeout, session identifier, ambient context, and credentials; its
global fields are the parent's merged with `extraFields`, the later
entry winning per key; and under the WebSocket transport it references
the parent's connection object and queue array instead of opening new
ones.  (Unamended, "shares the parent's configuration" fails: the
failure-history limit and the reconnect-attempt limit are not passed
through and reset to their defaults, 50 and 5.) -/
theorem gelf_c7_child_shares_parent (p : LoggerState) (extra : Obj) (u : String) (q : Nat)
    (hhost : p.host ≠ "") (hfac : p.facility ≠ "") (htime : p.timeout ≠ 0)
    (hep : p.endpoint ≠ some "") :
    (childLogger p extra u q).endpoint = p.endpoint
    ∧ (childLogger p extra u q).useWebSocket = p.useWebSocket
    ∧ (childLogger p extra u q).wsEndpoint = p.wsEndpoint
    ∧ (childLogger p extra u q).host = p.host
    ∧ (childLogger p extra u q).facility = p.facility
    ∧ (childLogger p extra u q).minLevel = p.minLevel
    ∧ (childLogger p extra u q).consoleLog = p.consoleLog
    ∧ (childLogger p extra u q).overloadConsole = p.overloadConsole
    ∧ (childLogger p extra u q).timeout = p.timeout
    ∧ (childLogger p extra u q).log_session_id = p.log_session_id
    ∧ (childLogger p extra u q).cfContext = p.cfContext
    ∧ (childLogger p extra u q).accessId = p.accessId
    ∧ (childLogger p extra u q).accessSecret = p.accessSecret
    ∧ (childLogger p extra u q).globalFields = applyWrites p.globalFields extra
    ∧ (∀ k, getField (childLogger p extra u q).globalFields k =
        lastWriteOr extra k (getField p.globalFields k))
    ∧ (p.useWebSocket = true →
        (childLogger p extra u q).wsConnRef = p.wsConnRef
        ∧ (childLogger p extra u q).wsQueueRef = p.wsQueueRef
        ∧ (childLogger p extra u q).wsMessageQueue = p.wsMessageQueue) := by
  have hendpoint : (childLogger p extra u q).endpoint = p.endpoint := by
    unfold childLogger mkLogger
    cases hpe : p.endpoint with
    | none =>
      by_cases hws : p.useWebSocket <;>
        simp [hws, jsOrStrOpt, jsTruthyStr]
    | some e =>
      have hne : e ≠ "" := fun h => hep (by rw [hpe, h])
      by_cases hws : p.useWebSocket <;>
        simp [hws, jsOrStrOpt, jsTruthyStr, hne]
  by_cases hws : p.useWebSocket
  · refine ⟨hendpoint, ?_, ?_, ?_, ?_, ?_, ?_, ?_, ?_, ?_, ?_, ?_, ?_, ?_, ?_, ?_⟩ <;>
      first
      | (intro hws2
         refine ⟨?_, ?_, ?_⟩ <;> simp [childLogger, mkLogger, hws])
      | (intro k
         rw [show (childLogger p extra u q).globalFields = applyWrites p.globalFields extra by
              simp [childLogger, mkLogger, hws]]
         exact getField_applyWrites extra p.globalFields k)
      | simp [childLogger, mkLogger, hws, jsOrStr, jsOrStrOpt, jsOrNat, jsTruthyStr,
          hhost, hfac, htime]
  · refine ⟨hendpoint, ?_, ?_, ?_, ?_, ?_, ?_, ?_, ?_, ?_, ?_, ?_, ?_, ?_, ?_, ?_⟩ <;>
      first
      | (intro hws2; exact absurd hws2 hws)
      | (intro k
         rw [show (childLogger p extra u q).globalFields = applyWrites p.globalFields extra by
              simp [childLogger, mkLogger, hws]]
         exact getField_applyWrites extra p.globalFields k)
      | simp [childLogger, mkLogger, hws, jsOrStr, jsOrStrOpt, jsOrNat, jsTruthyStr,
          hhost, hfac, htime]

/-- A parent one-shot logger constructed with a failure-history limit
of 10. -/
def par7 : LoggerState := mkLogger
  { endpoint := some "https://logs.example/gelf"
    maxFailedMessages := some 10
    globalFields := [("a", .vNum 1)] } "uuid-7" 0

/-- **C7 (counterexample)**: the child of a parent configured with
`maxFailedMessages = 10` comes back with the default 50 — the child does
not share this part of the parent's configuration (nor the reconnect
limit, which resets to 5 likewise). -/
theorem gelf_c7_counterexample :
    par7.maxFailedMessages = 10
    ∧ (childLogger par7 [] "uuid-7c" 1).maxFailedMessages = 50 :=
  ⟨rfl, rfl⟩

/-- **C7 (witness)**: concretely, the child shares the parent's session
id and merges an extra global field over the parent's. -/
theorem gelf_c7_witness :
    (childLogger par7 [("b", .vNum 2)] "uuid-7w" 1).log_session_id = par7.log_session_id
    ∧ (∀ k, getField (childLogger par7 [("b", .vNum 2)] "uuid-7w" 1).globalFields k =
        lastWriteOr [("b", .vNum 2)] k (getField par7.globalFields k)) := by
  have h := gelf_c7_child_shares_parent par7 [("b", .vNum 2)] "uuid-7w" 1
    (by decide) (by decide) (by decide) (by decide)
  exact ⟨h.2.2.2.2.2.2.2.2.2.1, h.2.2.2.2.2.2.2.2.2.2.2.2.2.2.1⟩
